import Mathlib

/-!
Shallow embedding of the p2shd peer locate-and-connect orchestrator
(`src/p2shd/src/behaviour.rs`) and proofs about its behaviour.

Modelling conventions:
* `SystemTime` is a `Nat` counting nanoseconds since the epoch; `Duration`
  values are likewise nanosecond counts (`secs n = n * 1000000000`).
  `SystemTime::elapsed` is `elapsed`, failing exactly when the clock
  reading precedes the stored timestamp.
* `PeerId` is an opaque comparable identifier, modelled as `String`.
* `Multiaddr` is the list of its protocol components; the payloads of
  `Ip4`/`Ip6` components are modelled as their textual rendering (Rust
  renders them with `format!` before any use).
* The Kademlia address book (what `addresses_of_peer` reads and
  `kad.add_address` writes) is the `cache` field: a list of
  (peer, address) pairs with set semantics.
* Effects are made explicit outputs: issuing a DHT lookup, calling
  `kad.bootstrap()`, firing the stored waker, spawning/waiting on the
  external `ssh` command (as a trace of dispatch events), and process
  exit are all recorded in the result values.
* Spawning is driven by an environment `spawnEnv : String → Option Nat`:
  `none` means `Command::spawn` fails for that host, `some c` means the
  process spawns and later exits with code `c` (the code is never
  inspected by the orchestrator).
-/

namespace P2shd

/-- Nanoseconds per second; `SystemTime`/`Duration` are nanosecond counts. -/
def nsPerSec : Nat := 1000000000

/-- Rust `Duration::from_secs n` as a nanosecond count. -/
def secs (n : Nat) : Nat := n * nsPerSec

/-- Rust `SystemTime::elapsed` at clock reading `now`: fails with a
`SystemTimeError` (modelled as `Unit`) exactly when `now` is earlier than
the stored timestamp. -/
def elapsed (querying now : Nat) : Except Unit Nat :=
  if now < querying then .error () else .ok (now - querying)

/-- Peer identifiers are opaque comparable tokens. -/
abbrev PeerId := String

/-- One component of a multiaddr, mirroring the `Protocol` variants the
code distinguishes (`to_host_addr` matches `Dnsaddr`, `Dns6`, `Dns4`,
`Ip4`, `Ip6`; everything else falls into the wildcard arm, represented
here by the transport/port/peer-id components the spec names). -/
inductive Protocol where
  | dnsaddr (a : String)
  | dns6 (a : String)
  | dns4 (a : String)
  | ip4 (a : String)
  | ip6 (a : String)
  | tcp (port : Nat)
  | udp (port : Nat)
  | p2p (peer : PeerId)
deriving DecidableEq, Repr

/-- A multiaddr is the ordered list of its protocol components. -/
abbrev Multiaddr := List Protocol

/-- Errors of the behaviour module (`src/p2shd/src/behaviour/error.rs`). -/
inductive Error where
  | NoIPAddrInMultiaddr (m : Multiaddr)
  | MultipleIPAddrInMultiaddr (m : Multiaddr)
  | MdnsInitialization
  | SpawningSshFailed (addr : String)
deriving DecidableEq, Repr

/-- `to_host_addr`: the host-bearing components and their string form. -/
def to_host_addr : Protocol → Option String
  | .dnsaddr a => some a
  | .dns6 a => some a
  | .dns4 a => some a
  | .ip4 a => some a
  | .ip6 a => some a
  | _ => none

/-- `host_addr_from_multiaddr`: collect the host-bearing components; fail
on zero or on more than one, succeed on exactly one. -/
def host_addr_from_multiaddr (m : Multiaddr) : Except Error String :=
  match m.filterMap to_host_addr with
  | [] => .error (.NoIPAddrInMultiaddr m)
  | [a] => .ok a
  | _ => .error (.MultipleIPAddrInMultiaddr m)

/-- Textual rendering of one component, as Rust's `Display` for
`Protocol` produces it. -/
def protocolToString : Protocol → String
  | .dnsaddr a => "/dnsaddr/" ++ a
  | .dns6 a => "/dns6/" ++ a
  | .dns4 a => "/dns4/" ++ a
  | .ip4 a => "/ip4/" ++ a
  | .ip6 a => "/ip6/" ++ a
  | .tcp port => "/tcp/" ++ toString port
  | .udp port => "/udp/" ++ toString port
  | .p2p peer => "/p2p/" ++ toString peer

/-- Textual rendering of a multiaddr (`a.to_string()` in Rust). -/
def multiaddrToString (m : Multiaddr) : String :=
  String.join (m.map protocolToString)

/-- Whether `pat` starts the character list `s`. -/
def startsWithPat : List Char → List Char → Bool
  | [], _ => true
  | _ :: _, [] => false
  | p :: ps, c :: cs => p == c && startsWithPat ps cs

/-- Whether `pat` occurs as a contiguous run inside `s`. -/
def containsPat (pat : List Char) : List Char → Bool
  | [] => startsWithPat pat []
  | c :: cs => startsWithPat pat (c :: cs) || containsPat pat cs

/-- Rust `str::contains` for plain substring patterns. -/
def strContains (s pat : String) : Bool :=
  containsPat pat.data s.data

/-- The mutable state of the `P2shd` behaviour: the Kademlia address
book, the stored waker (present or not), the `querying` timestamp, and
the two configured peer ids. -/
structure State where
  local_peer : PeerId
  remote_peer : PeerId
  cache : List (PeerId × Multiaddr)
  waker : Bool
  querying : Nat
deriving DecidableEq, Repr

/-- Adding one (peer, address) pair to the address book; the book has set
semantics (duplicates collapse). -/
def cache_add (c : List (PeerId × Multiaddr)) (p : PeerId) (a : Multiaddr) :
    List (PeerId × Multiaddr) :=
  if (p, a) ∈ c then c else c ++ [(p, a)]

/-- `kad.add_address(&peer_id, multiaddr)`. -/
def add_address (s : State) (p : PeerId) (a : Multiaddr) : State :=
  { s with cache := cache_add s.cache p a }

/-- `addresses_of_peer`: the addresses recorded for `p`. -/
def addresses_of_peer (s : State) (p : PeerId) : List Multiaddr :=
  (s.cache.filter (fun e => e.1 == p)).map (fun e => e.2)

/-- The hard-coded GM bootstrap node id. -/
def gm_id : PeerId := "12D3KooWRmrTKbuneCQMHAjiGyUTZZu6NZP1XpTMuJJZotTdgYTm"

/-- The hard-coded GM bootstrap node address `/ip4/81.223.86.162/tcp/22222`. -/
def gm_addr : Multiaddr := [.ip4 "81.223.86.162", .tcp 22222]

/-- `add_bootstrap_nodes`: seed the address book with the GM node. -/
def add_bootstrap_nodes (c : List (PeerId × Multiaddr)) :
    List (PeerId × Multiaddr) :=
  cache_add c gm_id gm_addr

/-- `P2shd::new`: derive the local peer, seed the bootstrap node, build
mdns (which can fail, modelled by `mdnsOk`), and set `querying` to
`SystemTime::now() - Duration::from_secs(10)`. -/
def new (local_peer remote_peer : PeerId) (now : Nat) (mdnsOk : Bool) :
    Except Error State :=
  if mdnsOk then
    .ok { local_peer := local_peer
          remote_peer := remote_peer
          cache := add_bootstrap_nodes []
          waker := false
          querying := now - secs 10 }
  else
    .error .MdnsInitialization

/-- One observable action of the Connector Dispatcher, in the order the
code performs them: a `Command::new("ssh").arg(host).spawn()` call, a
`h.wait()` call on a spawned child, or the log line for a failed spawn. -/
inductive DispatchEv where
  | spawn (cmd : String) (args : List String)
  | wait (host : String)
  | failLog (host : String)
deriving DecidableEq, Repr

/-- The candidate hosts the dispatcher iterates: extract a host from each
cached address (dropping failures) and filter out loopback names. -/
def node_addrs (cached : List Multiaddr) : List String :=
  (cached.filterMap (fun x => (host_addr_from_multiaddr x).toOption)).filter
    (fun a => a != "127.0.0.1" && a != "::1" && a != "localhost")

/-- The dispatch phase of `poll`: first spawn the command for every host
in order (collecting the children), then walk the children in the same
order, waiting on each successful spawn and logging each failure;
`success` records whether any spawn succeeded. -/
def dispatch (spawnEnv : String → Option Nat) (hosts : List String) :
    List DispatchEv × Bool :=
  let children := hosts.map (fun h => (h, spawnEnv h))
  let spawnTrace := hosts.map (fun h => DispatchEv.spawn "ssh" [h])
  let waitTrace := children.map (fun c =>
    match c.2 with
    | some _ => DispatchEv.wait c.1
    | none => DispatchEv.failLog c.1)
  let success := children.any (fun c => c.2.isSome)
  (spawnTrace ++ waitTrace, success)

/-- What a single `poll` call resolves to. -/
inductive PollRes where
  | pending
  | ready
  | exit (code : Nat)
deriving DecidableEq, Repr

/-- The observable output of one `poll` call. -/
structure PollOut where
  res : PollRes
  issuedLookup : Bool
  trace : List DispatchEv
deriving DecidableEq, Repr

/-- `P2shd::poll`: store the waker, read the cached addresses of the
remote peer, compute `still_querying` from the elapsed time since
`querying` (panicking, i.e. `.error`, if the clock went backwards), then
either issue a fresh closest-peers lookup, keep waiting, or dispatch
connection attempts; a successful spawn exits the process with status 0,
otherwise the poll completes with a generated event. -/
def poll (s : State) (now : Nat) (spawnEnv : String → Option Nat) :
    Except Unit (State × PollOut) :=
  let s1 := { s with waker := true }
  let cached := addresses_of_peer s1 s1.remote_peer
  match elapsed s1.querying now with
  | .error e => .error e
  | .ok q =>
    let still_querying : Bool := decide (q < secs 2)
    if cached.isEmpty && !still_querying then
      .ok ({ s1 with querying := now },
           { res := .pending, issuedLookup := true, trace := [] })
    else if still_querying then
      .ok (s1, { res := .pending, issuedLookup := false, trace := [] })
    else
      let tr := dispatch spawnEnv (node_addrs cached)
      if tr.2 then
        .ok (s1, { res := .exit 0, issuedLookup := false, trace := tr.1 })
      else
        .ok (s1, { res := .ready, issuedLookup := false, trace := tr.1 })

/-- `wake_on_found`: if the peer is the remote target, take the stored
waker and fire it (the returned flag says whether a waker actually
fired); otherwise do nothing. -/
def wake_on_found (s : State) (p : PeerId) : State × Bool :=
  if p == s.remote_peer then ({ s with waker := false }, s.waker)
  else (s, false)

/-- Mdns events: a list of discovered (peer, address) pairs, or an
expiry notification (ignored by the handler). -/
inductive MdnsEvent where
  | discovered (l : List (PeerId × Multiaddr))
  | expired (l : List (PeerId × Multiaddr))

/-- Output of the mdns handler: the new state, whether the stored waker
fired, and how many `kad.bootstrap()` calls were made. -/
structure MdnsOut where
  st : State
  fired : Bool
  boots : Nat

/-- The body of the mdns `Discovered` loop: for each pair in order, add
the address, call `kad.bootstrap()`, and run `wake_on_found`. -/
def mdnsDiscovered (s : State) : List (PeerId × Multiaddr) → MdnsOut
  | [] => { st := s, fired := false, boots := 0 }
  | (p, a) :: rest =>
    let s1 := add_address s p a
    let w := wake_on_found s1 p
    let o := mdnsDiscovered w.1 rest
    { st := o.st, fired := w.2 || o.fired, boots := o.boots + 1 }

/-- `NetworkBehaviourEventProcess<MdnsEvent>::inject_event`. -/
def inject_mdns_event (s : State) (ev : MdnsEvent) : MdnsOut :=
  match ev with
  | .discovered l => mdnsDiscovered s l
  | .expired _ => { st := s, fired := false, boots := 0 }

/-- Kademlia events as the handler distinguishes them: a `Discovered`
record (peer, addresses, connection status elided), or anything else. -/
inductive KademliaEvent where
  | discovered (peer_id : PeerId) (addresses : List Multiaddr)
  | other

/-- `NetworkBehaviourEventProcess<KademliaEvent>::inject_event`: only
`Discovered` does anything, namely `wake_on_found`. -/
def inject_kademlia_event (s : State) (ev : KademliaEvent) : State × Bool :=
  match ev with
  | .discovered p _ => wake_on_found s p
  | .other => (s, false)

/-- Decidable equality for `Except`, needed to evaluate results of
fallible operations on concrete inputs. -/
instance {ε α : Type} [DecidableEq ε] [DecidableEq α] : DecidableEq (Except ε α) :=
  fun x y =>
    match x, y with
    | .ok a, .ok b =>
      if h : a = b then isTrue (by rw [h])
      else isFalse (fun hh => by cases hh; exact h rfl)
    | .error a, .error b =>
      if h : a = b then isTrue (by rw [h])
      else isFalse (fun hh => by cases hh; exact h rfl)
    | .ok _, .error _ => isFalse (fun hh => by cases hh)
    | .error _, .ok _ => isFalse (fun hh => by cases hh)

/-- Identify events: a `Received` record carrying the peer and its
listen addresses, or anything else. -/
inductive IdentifyEvent where
  | received (peer_id : PeerId) (listen_addrs : List Multiaddr)
  | other

/-- The loop adding each valid listen address to the address book. -/
def addValidAddrs (s : State) (p : PeerId) : List Multiaddr → State
  | [] => s
  | a :: rest => addValidAddrs (add_address s p a) p rest

/-- `NetworkBehaviourEventProcess<IdentifyEvent>::inject_event`: on
`Received`, add every listen address whose textual form does not contain
`127.0.0.1`. -/
def inject_identify_event (s : State) (ev : IdentifyEvent) : State :=
  match ev with
  | .received p listen_addrs =>
    addValidAddrs s p
      (listen_addrs.filter (fun a => !(strContains (multiaddrToString a) "127.0.0.1")))
  | .other => s

/-- One input the external reactor can feed the behaviour: a poll at a
given clock reading, or an injected event of one of the three protocols. -/
inductive Event where
  | poll (now : Nat)
  | mdns (ev : MdnsEvent)
  | kad (ev : KademliaEvent)
  | identify (ev : IdentifyEvent)

/-- Result of one reactor step: continue in a new state (recording the
clock reading at which a DHT lookup was issued, if one was), exit the
process, or abort on a clock panic. -/
inductive StepRes where
  | next (s : State) (issued : Option Nat)
  | exited (s : State)
  | panicked

/-- One reactor step of the orchestrator. -/
def step (spawnEnv : String → Option Nat) (s : State) : Event → StepRes
  | .poll now =>
    match poll s now spawnEnv with
    | .error _ => .panicked
    | .ok (s2, out) =>
      match out.res with
      | .exit _ => .exited s2
      | _ => .next s2 (if out.issuedLookup then some now else none)
  | .mdns ev => .next (inject_mdns_event s ev).st none
  | .kad ev => .next (inject_kademlia_event s ev).1 none
  | .identify ev => .next (inject_identify_event s ev) none

/-- The clock readings at which DHT closest-peers lookups are issued
over a run, in order; the run stops at process exit or clock panic. -/
def runIssues (spawnEnv : String → Option Nat) (s : State) : List Event → List Nat
  | [] => []
  | e :: es =>
    match step spawnEnv s e with
    | .next s2 (some t) => t :: runIssues spawnEnv s2 es
    | .next s2 none => runIssues spawnEnv s2 es
    | .exited _ => []
    | .panicked => []

/-- Example state for C4: the target's addresses are cached, but only
one second has passed since the last issued lookup. -/
def c4ExState : State :=
  { local_peer := "QmLocal", remote_peer := "QmTarget",
    cache := [("QmTarget", [.ip4 "10.0.0.9", .tcp 4001])],
    waker := false, querying := secs 100 }

/-- Example state for the C4 witness: empty cache, cooldown elapsed. -/
def c4WState : State :=
  { local_peer := "QmLocal", remote_peer := "QmTarget",
    cache := [], waker := false, querying := secs 100 }

/-- Example state for C2: one cached address for the target. -/
def c2WState : State :=
  { local_peer := "QmLocal", remote_peer := "QmTarget",
    cache := [("QmTarget", [.ip4 "203.0.113.5", .tcp 22])],
    waker := false, querying := secs 100 }

/-- Example state for C6: two cached addresses for the target. -/
def c6ExState : State :=
  { local_peer := "QmLocal", remote_peer := "QmTarget",
    cache := [("QmTarget", [.ip4 "10.0.0.1"]), ("QmTarget", [.ip4 "10.0.0.2"])],
    waker := false, querying := 0 }

/-- Spawn environment for the C6 witness: spawning fails for the first
host and succeeds (exit code 3) for every other. -/
def c6WEnv : String → Option Nat :=
  fun h => if h == "10.0.0.1" then none else some 3

/-- Example state for C8: empty address book. -/
def c8ExState : State :=
  { local_peer := "QmLocal", remote_peer := "QmTarget",
    cache := [], waker := false, querying := 0 }

/-- Example state for C10: last lookup issued at 100 s. -/
def c10WState : State :=
  { local_peer := "QmLocal", remote_peer := "QmTarget",
    cache := [], waker := false, querying := secs 100 }

/-- The state `new` builds at clock reading 100 s with a working mdns. -/
def c7WState : State :=
  { local_peer := "QmLocal", remote_peer := "QmTarget",
    cache := [(gm_id, gm_addr)], waker := false, querying := secs 90 }

/-- Spawn environment for the C2 witness: every spawn succeeds and the
child exits with the non-zero code 17. -/
def c2WEnv : String → Option Nat := fun _ => some 17

/-- A poll whose clock reading precedes the stored `querying` timestamp
panics (the `expect` on the `SystemTimeError`). -/
theorem poll_eq_error (s : State) (now : Nat) (env : String → Option Nat)
    (h : now < s.querying) : poll s now env = .error () := by
  unfold poll elapsed
  simp [h]

/-- Branch 1 of `poll`: empty cache and cooldown elapsed issue a fresh
lookup, stamp `querying := now`, and suspend. -/
theorem poll_eq_issue (s : State) (now : Nat) (env : String → Option Nat)
    (hle : s.querying ≤ now) (hcool : secs 2 ≤ now - s.querying)
    (hemp : addresses_of_peer s s.remote_peer = []) :
    poll s now env =
      .ok ({ s with waker := true, querying := now },
        { res := .pending, issuedLookup := true, trace := [] }) := by
  have h1 : ¬ now < s.querying := Nat.not_lt.mpr hle
  have h2 : ¬ (now - s.querying < secs 2) := Nat.not_lt.mpr hcool
  simp only [poll, elapsed, addresses_of_peer] at hemp ⊢
  simp [h1, h2, hemp]

/-- Branch 2 of `poll`: within the cooldown the poll suspends without
issuing a lookup, whatever the cache holds. -/
theorem poll_eq_still (s : State) (now : Nat) (env : String → Option Nat)
    (hle : s.querying ≤ now) (hcool : now - s.querying < secs 2) :
    poll s now env =
      .ok ({ s with waker := true },
        { res := .pending, issuedLookup := false, trace := [] }) := by
  have h1 : ¬ now < s.querying := Nat.not_lt.mpr hle
  simp only [poll, elapsed]
  simp [h1, hcool]

/-- Branch 3 of `poll`: cooldown elapsed and non-empty cache dispatch
connection attempts; any successful spawn exits the process with status
0, otherwise the poll completes with a generated event. -/
theorem poll_eq_dispatch (s : State) (now : Nat) (env : String → Option Nat)
    (hle : s.querying ≤ now) (hcool : secs 2 ≤ now - s.querying)
    (hne : addresses_of_peer s s.remote_peer ≠ []) :
    poll s now env =
      .ok ({ s with waker := true },
        { res := if (dispatch env (node_addrs (addresses_of_peer s s.remote_peer))).2
              then PollRes.exit 0 else PollRes.ready,
          issuedLookup := false,
          trace := (dispatch env (node_addrs (addresses_of_peer s s.remote_peer))).1 }) := by
  have h1 : ¬ now < s.querying := Nat.not_lt.mpr hle
  have h2 : ¬ (now - s.querying < secs 2) := Nat.not_lt.mpr hcool
  simp only [poll, elapsed, addresses_of_peer] at hne ⊢
  simp [h1, h2, hne]
  split <;> simp

/-- The dispatch success flag holds exactly when some candidate host's
spawn succeeds. -/
theorem dispatch_success_iff (env : String → Option Nat) (hosts : List String) :
    (dispatch env hosts).2 = true ↔ ∃ h ∈ hosts, (env h).isSome = true := by
  simp [dispatch, List.any_eq_true]

/-- The dispatch trace is all the spawns in host order, then one wait or
failure log per host in the same order. -/
theorem dispatch_trace_eq (env : String → Option Nat) (hosts : List String) :
    (dispatch env hosts).1 =
      hosts.map (fun h => DispatchEv.spawn "ssh" [h]) ++
      hosts.map (fun h =>
        if (env h).isSome then DispatchEv.wait h else DispatchEv.failLog h) := by
  simp only [dispatch, List.map_map]
  refine congrArg _ (List.map_congr_left ?_)
  intro h _
  cases hv : env h <;> simp [Function.comp, hv]

/-- The address book never touches `querying`: adding an address. -/
theorem add_address_querying (s : State) (p : PeerId) (a : Multiaddr) :
    (add_address s p a).querying = s.querying := rfl

/-- The stored waker never touches `querying`. -/
theorem wake_on_found_querying (s : State) (p : PeerId) :
    (wake_on_found s p).1.querying = s.querying := by
  unfold wake_on_found
  split <;> rfl

/-- The mdns `Discovered` loop never touches `querying`. -/
theorem mdnsDiscovered_querying (l : List (PeerId × Multiaddr)) :
    ∀ s : State, (mdnsDiscovered s l).st.querying = s.querying := by
  induction l with
  | nil => intro s; rfl
  | cons pa rest ih =>
    intro s
    obtain ⟨p, a⟩ := pa
    simp only [mdnsDiscovered]
    rw [ih, wake_on_found_querying, add_address_querying]

/-- The mdns handler never touches `querying`. -/
theorem inject_mdns_event_querying (s : State) (ev : MdnsEvent) :
    (inject_mdns_event s ev).st.querying = s.querying := by
  cases ev with
  | discovered l => exact mdnsDiscovered_querying l s
  | expired l => rfl

/-- The Kademlia handler never touches `querying`. -/
theorem inject_kademlia_event_querying (s : State) (ev : KademliaEvent) :
    (inject_kademlia_event s ev).1.querying = s.querying := by
  cases ev with
  | discovered p addrs => exact wake_on_found_querying s p
  | other => rfl

/-- The identify loop never touches `querying`. -/
theorem addValidAddrs_querying (l : List Multiaddr) :
    ∀ (s : State) (p : PeerId), (addValidAddrs s p l).querying = s.querying := by
  induction l with
  | nil => intro s p; rfl
  | cons a rest ih =>
    intro s p
    simp only [addValidAddrs]
    rw [ih, add_address_querying]

/-- The identify handler never touches `querying`. -/
theorem inject_identify_event_querying (s : State) (ev : IdentifyEvent) :
    (inject_identify_event s ev).querying = s.querying := by
  cases ev with
  | received p l => exact addValidAddrs_querying _ s p
  | other => rfl

/-- Inversion for a non-panicking poll: the clock did not run backwards,
and either a lookup was issued with the cooldown elapsed and `querying`
restamped to `now`, or no lookup was issued and `querying` is unchanged. -/
theorem poll_ok_inv (s : State) (now : Nat) (env : String → Option Nat)
    (s2 : State) (out : PollOut) (h : poll s now env = .ok (s2, out)) :
    s.querying ≤ now ∧
      ((out.issuedLookup = true ∧ secs 2 ≤ now - s.querying ∧ s2.querying = now) ∨
       (out.issuedLookup = false ∧ s2.querying = s.querying)) := by
  by_cases h1 : now < s.querying
  · rw [poll_eq_error s now env h1] at h
    cases h
  · have hle : s.querying ≤ now := Nat.not_lt.mp h1
    refine ⟨hle, ?_⟩
    by_cases h2 : now - s.querying < secs 2
    · rw [poll_eq_still s now env hle h2] at h
      simp only [Except.ok.injEq, Prod.mk.injEq] at h
      obtain ⟨hs, ho⟩ := h
      right
      rw [← ho, ← hs]
      exact ⟨rfl, rfl⟩
    · have hcool : secs 2 ≤ now - s.querying := Nat.not_lt.mp h2
      by_cases h3 : addresses_of_peer s s.remote_peer = []
      · rw [poll_eq_issue s now env hle hcool h3] at h
        simp only [Except.ok.injEq, Prod.mk.injEq] at h
        obtain ⟨hs, ho⟩ := h
        left
        rw [← ho, ← hs]
        exact ⟨rfl, hcool, rfl⟩
      · rw [poll_eq_dispatch s now env hle hcool h3] at h
        simp only [Except.ok.injEq, Prod.mk.injEq] at h
        obtain ⟨hs, ho⟩ := h
        right
        rw [← ho, ← hs]
        exact ⟨rfl, rfl⟩

/-- If a reactor step issues a lookup at time `t`, the cooldown had
elapsed since the stored timestamp, and the new timestamp is `t`. -/
theorem step_next_some (env : String → Option Nat) (s : State) (e : Event)
    (s2 : State) (t : Nat) (h : step env s e = .next s2 (some t)) :
    s.querying + secs 2 ≤ t ∧ s2.querying = t := by
  cases e with
  | poll now =>
    simp only [step] at h
    cases hp : poll s now env with
    | error u => simp [hp] at h
    | ok pr =>
      obtain ⟨s', out⟩ := pr
      simp only [hp] at h
      obtain ⟨hle, hcase⟩ := poll_ok_inv s now env s' out hp
      cases hres : out.res with
      | exit c => simp [hres] at h
      | pending =>
        cases hiss : out.issuedLookup with
        | false => simp [hres, hiss] at h
        | true =>
          simp only [hres, hiss, if_true, StepRes.next.injEq, Option.some.injEq] at h
          obtain ⟨hs, ht⟩ := h
          rcases hcase with ⟨_, hcool, hq⟩ | ⟨hfalse, _⟩
          · subst hs; subst ht
            exact ⟨by omega, hq⟩
          · rw [hiss] at hfalse; cases hfalse
      | ready =>
        cases hiss : out.issuedLookup with
        | false => simp [hres, hiss] at h
        | true =>
          simp only [hres, hiss, if_true, StepRes.next.injEq, Option.some.injEq] at h
          obtain ⟨hs, ht⟩ := h
          rcases hcase with ⟨_, hcool, hq⟩ | ⟨hfalse, _⟩
          · subst hs; subst ht
            exact ⟨by omega, hq⟩
          · rw [hiss] at hfalse; cases hfalse
  | mdns ev => simp [step] at h
  | kad ev => simp [step] at h
  | identify ev => simp [step] at h

/-- A reactor step that issues no lookup leaves `querying` unchanged. -/
theorem step_next_none (env : String → Option Nat) (s : State) (e : Event)
    (s2 : State) (h : step env s e = .next s2 none) :
    s2.querying = s.querying := by
  cases e with
  | poll now =>
    simp only [step] at h
    cases hp : poll s now env with
    | error u => simp [hp] at h
    | ok pr =>
      obtain ⟨s', out⟩ := pr
      simp only [hp] at h
      obtain ⟨hle, hcase⟩ := poll_ok_inv s now env s' out hp
      cases hres : out.res with
      | exit c => simp [hres] at h
      | pending =>
        cases hiss : out.issuedLookup with
        | true => simp [hres, hiss] at h
        | false =>
          simp only [hres, hiss, if_false, StepRes.next.injEq] at h
          rcases hcase with ⟨htrue, _⟩ | ⟨_, hq⟩
          · rw [hiss] at htrue; cases htrue
          · rw [← h.1]; exact hq
      | ready =>
        cases hiss : out.issuedLookup with
        | true => simp [hres, hiss] at h
        | false =>
          simp only [hres, hiss, if_false, StepRes.next.injEq] at h
          rcases hcase with ⟨htrue, _⟩ | ⟨_, hq⟩
          · rw [hiss] at htrue; cases htrue
          · rw [← h.1]; exact hq
  | mdns ev =>
    simp only [step, StepRes.next.injEq] at h
    rw [← h.1]
    exact inject_mdns_event_querying s ev
  | kad ev =>
    simp only [step, StepRes.next.injEq] at h
    rw [← h.1]
    exact inject_kademlia_event_querying s ev
  | identify ev =>
    simp only [step, StepRes.next.injEq] at h
    rw [← h.1]
    exact inject_identify_event_querying s ev

/-- Firing the waker does not change the address book. -/
theorem wake_on_found_cache (s : State) (p : PeerId) :
    (wake_on_found s p).1.cache = s.cache := by
  unfold wake_on_found
  split <;> rfl

/-- An added pair is in the book afterwards. -/
theorem mem_cache_add (c : List (PeerId × Multiaddr)) (p : PeerId) (a : Multiaddr) :
    (p, a) ∈ cache_add c p a := by
  unfold cache_add
  split
  · assumption
  · simp

/-- The waker fires exactly when the peer is the remote target and a
waker was stored. -/
theorem wake_on_found_fired (s : State) (p : PeerId) :
    (wake_on_found s p).2 = ((p == s.remote_peer) && s.waker) := by
  cases hpq : p == s.remote_peer <;> simp [wake_on_found, hpq]

/-- C1: over any sequence of reactor inputs, the clock readings at which
the orchestrator issues DHT closest-peers lookups for the target are
separated by at least the 2-second cooldown, counted from the stored
`querying` timestamp: a second lookup is never issued while less than
the cooldown has elapsed since the previous issue. -/
theorem c1_lookup_throttle (env : String → Option Nat) (s : State) (es : List Event) :
    List.Chain (fun a b => a + secs 2 ≤ b) s.querying (runIssues env s es) := by
  induction es generalizing s with
  | nil => exact List.Chain.nil
  | cons e es ih =>
    simp only [runIssues]
    cases hstep : step env s e with
    | panicked => exact List.Chain.nil
    | exited s2 => exact List.Chain.nil
    | next s2 issued =>
      cases issued with
      | none =>
        have hq := step_next_none env s e s2 hstep
        have hc := ih s2
        rw [hq] at hc
        exact hc
      | some t =>
        obtain ⟨hb, hq⟩ := step_next_some env s e s2 t hstep
        refine List.Chain.cons hb ?_
        have hc := ih s2
        rw [hq] at hc
        exact hc

/-- C10: `poll` panics (errors on the `expect`) exactly when the clock
reading precedes the stored `querying` timestamp; when it does not,
`poll` is total and returns a value. -/
theorem c10_poll_totality (s : State) (now : Nat) (env : String → Option Nat) :
    (now < s.querying → poll s now env = .error ()) ∧
    (s.querying ≤ now → ((poll s now env).toOption.isSome = true)) := by
  constructor
  · intro h
    exact poll_eq_error s now env h
  · intro hle
    by_cases h2 : now - s.querying < secs 2
    · rw [poll_eq_still s now env hle h2]; rfl
    · have hcool : secs 2 ≤ now - s.querying := Nat.not_lt.mp h2
      by_cases h3 : addresses_of_peer s s.remote_peer = []
      · rw [poll_eq_issue s now env hle hcool h3]; rfl
      · rw [poll_eq_dispatch s now env hle hcool h3]; rfl

/-- Witness for C10 at concrete inputs: a clock reading one second
before the stored timestamp panics, one three seconds after succeeds. -/
theorem c10_poll_totality_witness :
    poll c10WState (secs 99) (fun _ => none) = .error () ∧
    ((poll c10WState (secs 103) (fun _ => none)).toOption.isSome = true) :=
  ⟨(c10_poll_totality c10WState (secs 99) (fun _ => none)).1 (by decide),
   (c10_poll_totality c10WState (secs 103) (fun _ => none)).2 (by decide)⟩

/-- C3: `host_addr_from_multiaddr` fails with `NoIPAddrInMultiaddr` when
no component is host-bearing, succeeds with the string form of the
unique host-bearing component, fails with `MultipleIPAddrInMultiaddr`
when there are two or more, and the host-bearing components are exactly
the DNS-name, DNS-IPv6, DNS-IPv4, IPv4 and IPv6 components. -/
theorem c3_extract_host (m : Multiaddr) :
    (m.filterMap to_host_addr = [] →
      host_addr_from_multiaddr m = .error (.NoIPAddrInMultiaddr m)) ∧
    (∀ a, m.filterMap to_host_addr = [a] →
      host_addr_from_multiaddr m = .ok a) ∧
    (∀ a b l, m.filterMap to_host_addr = a :: b :: l →
      host_addr_from_multiaddr m = .error (.MultipleIPAddrInMultiaddr m)) ∧
    (∀ p : Protocol, (to_host_addr p).isSome = true ↔
      (∃ x, p = .dnsaddr x ∨ p = .dns6 x ∨ p = .dns4 x ∨ p = .ip4 x ∨ p = .ip6 x)) := by
  refine ⟨?_, ?_, ?_, ?_⟩
  · intro h
    simp [host_addr_from_multiaddr, h]
  · intro a h
    simp [host_addr_from_multiaddr, h]
  · intro a b l h
    simp [host_addr_from_multiaddr, h]
  · intro p
    cases p <;> simp [to_host_addr]

/-- Witness for C3 at concrete addresses: one host component succeeds,
none fails, two fail as ambiguous. -/
theorem c3_extract_host_witness :
    host_addr_from_multiaddr [.ip4 "93.184.216.34", .tcp 443] = .ok "93.184.216.34" ∧
    host_addr_from_multiaddr [.tcp 443] = .error (.NoIPAddrInMultiaddr [.tcp 443]) ∧
    host_addr_from_multiaddr [.dns4 "example.com", .ip4 "1.2.3.4"] =
      .error (.MultipleIPAddrInMultiaddr [.dns4 "example.com", .ip4 "1.2.3.4"]) :=
  ⟨(c3_extract_host [.ip4 "93.184.216.34", .tcp 443]).2.1 "93.184.216.34" (by decide),
   (c3_extract_host [.tcp 443]).1 (by decide),
   (c3_extract_host [.dns4 "example.com", .ip4 "1.2.3.4"]).2.2.1
     "example.com" "1.2.3.4" [] (by decide)⟩

/-- C5: no host the dispatcher iterates equals `127.0.0.1`, `::1` or
`localhost`; and on candidate addresses extracting to exactly the hosts
`127.0.0.1`, `203.0.113.5`, `::1`, only `203.0.113.5` is attempted. -/
theorem c5_no_loopback_dial :
    (∀ (cached : List Multiaddr) (h : String), h ∈ node_addrs cached →
      h ≠ "127.0.0.1" ∧ h ≠ "::1" ∧ h ≠ "localhost") ∧
    node_addrs [[.ip4 "127.0.0.1"], [.ip4 "203.0.113.5"], [.ip6 "::1"]] =
      ["203.0.113.5"] := by
  constructor
  · intro cached h hmem
    simp only [node_addrs, List.mem_filter] at hmem
    obtain ⟨-, hcond⟩ := hmem
    simp only [Bool.and_eq_true, bne_iff_ne, ne_eq] at hcond
    exact ⟨hcond.1.1, hcond.1.2, hcond.2⟩
  · decide

/-- Witness for C5: a non-loopback host that survives the filter is
indeed none of the three loopback names. -/
theorem c5_no_loopback_dial_witness :
    ("203.0.113.5" : String) ≠ "127.0.0.1" ∧ ("203.0.113.5" : String) ≠ "::1" ∧
      ("203.0.113.5" : String) ≠ "localhost" :=
  c5_no_loopback_dial.1 [[.ip4 "203.0.113.5", .tcp 22]] "203.0.113.5" (by decide)

/-- C9: a local-discovery event for (P, A) records A for P in the
address book, requests one DHT re-bootstrap, and fires the stored waker
exactly when P is the target and a waker is stored; a DHT `Discovered`
event for peer Q fires the stored waker exactly when Q is the target and
a waker is stored — in particular non-target peers never fire it. -/
theorem c9_discovery_wake (s : State) (p : PeerId) (a : Multiaddr)
    (q : PeerId) (addrs : List Multiaddr) :
    ((p, a) ∈ (inject_mdns_event s (.discovered [(p, a)])).st.cache) ∧
    (inject_mdns_event s (.discovered [(p, a)])).boots = 1 ∧
    (inject_mdns_event s (.discovered [(p, a)])).fired =
      ((p == s.remote_peer) && s.waker) ∧
    (inject_kademlia_event s (.discovered q addrs)).2 =
      ((q == s.remote_peer) && s.waker) := by
  refine ⟨?_, ?_, ?_, ?_⟩
  · show (p, a) ∈ (mdnsDiscovered s [(p, a)]).st.cache
    simp only [mdnsDiscovered, wake_on_found_cache]
    exact mem_cache_add s.cache p a
  · rfl
  · show (mdnsDiscovered s [(p, a)]).fired = _
    simp only [mdnsDiscovered, wake_on_found_fired, add_address, Bool.or_false]
  · exact wake_on_found_fired s q

/-- C2 as stated: within a dispatching poll, if at least one candidate
host's spawn succeeds the process exits with status 0 — whatever the
spawned command's own exit code, as the environment is arbitrary — and
if no spawn succeeds the poll completes with a generated event and the
process does not exit. -/
theorem c2_spawn_success_exits (s : State) (now : Nat) (env : String → Option Nat)
    (hclock : s.querying ≤ now) (hcool : secs 2 ≤ now - s.querying)
    (hne : addresses_of_peer s s.remote_peer ≠ []) :
    ((∃ h ∈ node_addrs (addresses_of_peer s s.remote_peer), (env h).isSome = true) →
      poll s now env = .ok ({ s with waker := true },
        { res := .exit 0, issuedLookup := false,
          trace := (dispatch env (node_addrs (addresses_of_peer s s.remote_peer))).1 })) ∧
    ((∀ h ∈ node_addrs (addresses_of_peer s s.remote_peer), env h = none) →
      poll s now env = .ok ({ s with waker := true },
        { res := .ready, issuedLookup := false,
          trace := (dispatch env (node_addrs (addresses_of_peer s s.remote_peer))).1 })) := by
  constructor
  · intro hex
    have hsucc : (dispatch env (node_addrs (addresses_of_peer s s.remote_peer))).2 = true :=
      (dispatch_success_iff env _).mpr hex
    rw [poll_eq_dispatch s now env hclock hcool hne, hsucc]
    rfl
  · intro hall
    have hfail : (dispatch env (node_addrs (addresses_of_peer s s.remote_peer))).2 = false := by
      rw [Bool.eq_false_iff]
      rw [Ne, dispatch_success_iff]
      rintro ⟨h, hm, hsome⟩
      rw [hall h hm] at hsome
      cases hsome
    rw [poll_eq_dispatch s now env hclock hcool hne, hfail]
    rfl

/-- Witness for C2: one cached address for the target, the spawn
succeeds with child exit code 17, and the poll exits the process with
status 0 regardless. -/
theorem c2_spawn_success_exits_witness :
    poll c2WState (secs 103) c2WEnv = .ok ({ c2WState with waker := true },
      { res := .exit 0, issuedLookup := false,
        trace := (dispatch c2WEnv
          (node_addrs (addresses_of_peer c2WState c2WState.remote_peer))).1 }) :=
  (c2_spawn_success_exits c2WState (secs 103) c2WEnv (by decide) (by decide)
      (by decide)).1 ⟨"203.0.113.5", by decide, by decide⟩

/-- C4 counterexample: with the target's addresses cached but only one
second since the last issued lookup, `poll` suspends with an empty
dispatch trace instead of dispatching — refuting "if the set is
non-empty, connection dispatch proceeds synchronously within the same
poll call". -/
theorem c4_nonempty_pending_counterexample :
    addresses_of_peer c4ExState c4ExState.remote_peer ≠ [] ∧
    poll c4ExState (secs 101) (fun _ => some 0) =
      .ok ({ c4ExState with waker := true },
        { res := .pending, issuedLookup := false, trace := [] }) := by
  constructor
  · decide
  · decide

/-- C4 amended: on each poll (with a clock that did not run backwards):
empty cache and elapsed cooldown issue a lookup, stamp the issue time
and suspend; within the cooldown the poll suspends without dispatching
whatever the cache holds; non-empty cache and elapsed cooldown dispatch
synchronously within the same poll call. -/
theorem c4_poll_branches (s : State) (now : Nat) (env : String → Option Nat)
    (hclock : s.querying ≤ now) :
    (addresses_of_peer s s.remote_peer = [] → secs 2 ≤ now - s.querying →
      poll s now env = .ok ({ s with waker := true, querying := now },
        { res := .pending, issuedLookup := true, trace := [] })) ∧
    (now - s.querying < secs 2 →
      poll s now env = .ok ({ s with waker := true },
        { res := .pending, issuedLookup := false, trace := [] })) ∧
    (addresses_of_peer s s.remote_peer ≠ [] → secs 2 ≤ now - s.querying →
      poll s now env = .ok ({ s with waker := true },
        { res := if (dispatch env (node_addrs (addresses_of_peer s s.remote_peer))).2
              then PollRes.exit 0 else PollRes.ready,
          issuedLookup := false,
          trace := (dispatch env (node_addrs (addresses_of_peer s s.remote_peer))).1 })) :=
  ⟨fun hemp hcool => poll_eq_issue s now env hclock hcool hemp,
   fun hstill => poll_eq_still s now env hclock hstill,
   fun hne hcool => poll_eq_dispatch s now env hclock hcool hne⟩

/-- Witness for the amended C4: empty cache, cooldown elapsed, a lookup
is issued and the poll suspends. -/
theorem c4_poll_branches_witness :
    poll c4WState (secs 103) (fun _ => some 0) =
      .ok ({ c4WState with waker := true, querying := secs 103 },
        { res := .pending, issuedLookup := true, trace := [] }) :=
  (c4_poll_branches c4WState (secs 103) (fun _ => some 0) (by decide)).1
    (by decide) (by decide)

/-- C6 counterexample: with two candidate hosts both of which spawn
successfully, the second host's spawn occurs in the dispatch trace
before the wait on the first host's command — refuting "once a connect
command is spawned, the dispatcher waits for it to run to completion
before the next host's command is attempted". -/
theorem c6_spawn_order_counterexample :
    poll c6ExState (secs 100) (fun _ => some 0) =
      .ok ({ c6ExState with waker := true },
        { res := .exit 0, issuedLookup := false,
          trace := [.spawn "ssh" ["10.0.0.1"], .spawn "ssh" ["10.0.0.2"],
                    .wait "10.0.0.1", .wait "10.0.0.2"] }) ∧
    List.indexOf (DispatchEv.spawn "ssh" ["10.0.0.2"])
        [DispatchEv.spawn "ssh" ["10.0.0.1"], .spawn "ssh" ["10.0.0.2"],
         .wait "10.0.0.1", .wait "10.0.0.2"] <
      List.indexOf (DispatchEv.wait "10.0.0.1")
        [DispatchEv.spawn "ssh" ["10.0.0.1"], .spawn "ssh" ["10.0.0.2"],
         .wait "10.0.0.1", .wait "10.0.0.2"] := by
  constructor
  · decide
  · decide

/-- C6 amended: hosts are attempted in the cache's iteration order, each
as the sole argument of the `ssh` command; the dispatcher first spawns
the command for every host in that order, then waits for each
successfully spawned command in the same order; a spawn failure is
logged and skipped without aborting the remaining hosts. -/
theorem c6_dispatch_trace (s : State) (now : Nat) (env : String → Option Nat)
    (hclock : s.querying ≤ now) (hcool : secs 2 ≤ now - s.querying)
    (hne : addresses_of_peer s s.remote_peer ≠ []) :
    poll s now env = .ok ({ s with waker := true },
      { res := if (dispatch env (node_addrs (addresses_of_peer s s.remote_peer))).2
            then PollRes.exit 0 else PollRes.ready,
        issuedLookup := false,
        trace :=
          (node_addrs (addresses_of_peer s s.remote_peer)).map
            (fun h => DispatchEv.spawn "ssh" [h]) ++
          (node_addrs (addresses_of_peer s s.remote_peer)).map
            (fun h => if (env h).isSome then DispatchEv.wait h
              else DispatchEv.failLog h) }) := by
  rw [poll_eq_dispatch s now env hclock hcool hne, dispatch_trace_eq]

/-- Witness for the amended C6: the first host's spawn fails, the second
succeeds; both spawns precede the failure log and the wait. -/
theorem c6_dispatch_trace_witness :
    poll c6ExState (secs 100) c6WEnv = .ok ({ c6ExState with waker := true },
      { res := if (dispatch c6WEnv
              (node_addrs (addresses_of_peer c6ExState c6ExState.remote_peer))).2
            then PollRes.exit 0 else PollRes.ready,
        issuedLookup := false,
        trace :=
          (node_addrs (addresses_of_peer c6ExState c6ExState.remote_peer)).map
            (fun h => DispatchEv.spawn "ssh" [h]) ++
          (node_addrs (addresses_of_peer c6ExState c6ExState.remote_peer)).map
            (fun h => if (c6WEnv h).isSome then DispatchEv.wait h
              else DispatchEv.failLog h) }) :=
  c6_dispatch_trace c6ExState (secs 100) c6WEnv (by decide) (by decide) (by decide)

/-- C7 counterexample: at clock reading 100 s, `new` stores
`querying = 90 s`, which is not `now` minus the 2-second cooldown. -/
theorem c7_new_timestamp_counterexample :
    (new "QmLocal" "QmTarget" (secs 100) true).toOption.map State.querying =
      some (secs 90) ∧
    secs 90 ≠ secs 100 - secs 2 := by
  constructor
  · decide
  · decide

/-- C7 amended: `new` stores `querying = now − 10 s` (ten seconds, not
the 2-second cooldown); since ten seconds exceed the cooldown, an
immediate first query is still allowed: a first poll at the very same
clock reading with an empty cache for the target issues a lookup. -/
theorem c7_new_allows_immediate_query (l r : PeerId) (now : Nat)
    (env : String → Option Nat) (h10 : secs 10 ≤ now) :
    ((new l r now true).toOption.map State.querying = some (now - secs 10)) ∧
    (∀ s : State, new l r now true = .ok s →
      addresses_of_peer s s.remote_peer = [] →
      poll s now env = .ok ({ s with waker := true, querying := now },
        { res := .pending, issuedLookup := true, trace := [] })) := by
  constructor
  · rfl
  · intro s hs hemp
    have hq : s.querying = now - secs 10 := by
      simp only [new, if_true, Except.ok.injEq] at hs
      rw [← hs]
    refine poll_eq_issue s now env ?_ ?_ hemp
    · rw [hq]; omega
    · rw [hq]
      simp only [secs, nsPerSec] at h10 ⊢
      omega

/-- Witness for the amended C7: the state built by `new` at 100 s has
`querying = 90 s` and its first poll issues a lookup at once. -/
theorem c7_new_allows_immediate_query_witness :
    poll c7WState (secs 100) (fun _ => none) =
      .ok ({ c7WState with waker := true, querying := secs 100 },
        { res := .pending, issuedLookup := true, trace := [] }) :=
  (c7_new_allows_immediate_query "QmLocal" "QmTarget" (secs 100) (fun _ => none)
      (by decide)).2 c7WState (by decide) (by decide)

/-- C8 counterexample: the identify handler — which is neither the
local-discovery handler nor the DHT discovery handler — adds a reported
listen address to the address book, mutating the cache. -/
theorem c8_identify_mutates_cache_counterexample :
    (inject_identify_event c8ExState
        (.received "QmPeer" [[.ip4 "10.0.0.5", .tcp 4001]])).cache ≠
      c8ExState.cache := by
  decide

/-- C8 amended: the address book is mutated only by the mdns and
identify handlers (and the construction-time bootstrap seeding): the DHT
event handler leaves the cache unchanged, firing the waker leaves it
unchanged, and every non-panicking poll leaves it unchanged. -/
theorem c8_cache_frame :
    (∀ (s : State) (ev : KademliaEvent), (inject_kademlia_event s ev).1.cache = s.cache) ∧
    (∀ (s : State) (p : PeerId), (wake_on_found s p).1.cache = s.cache) ∧
    (∀ (s : State) (now : Nat) (env : String → Option Nat) (s' : State) (out : PollOut),
      poll s now env = .ok (s', out) → s'.cache = s.cache) := by
  refine ⟨?_, wake_on_found_cache, ?_⟩
  · intro s ev
    cases ev with
    | discovered p addrs => exact wake_on_found_cache s p
    | other => rfl
  · intro s now env s' out h
    by_cases h1 : now < s.querying
    · rw [poll_eq_error s now env h1] at h
      cases h
    · have hle : s.querying ≤ now := Nat.not_lt.mp h1
      by_cases h2 : now - s.querying < secs 2
      · rw [poll_eq_still s now env hle h2] at h
        simp only [Except.ok.injEq, Prod.mk.injEq] at h
        rw [← h.1]
      · have hcool : secs 2 ≤ now - s.querying := Nat.not_lt.mp h2
        by_cases h3 : addresses_of_peer s s.remote_peer = []
        · rw [poll_eq_issue s now env hle hcool h3] at h
          simp only [Except.ok.injEq, Prod.mk.injEq] at h
          rw [← h.1]
        · rw [poll_eq_dispatch s now env hle hcool h3] at h
          simp only [Except.ok.injEq, Prod.mk.injEq] at h
          rw [← h.1]

/-- Witness for the amended C8: a concrete issuing poll returns a state
with the same cache. -/
theorem c8_cache_frame_witness :
    ({ c8ExState with waker := true, querying := secs 100 } : State).cache =
      c8ExState.cache :=
  c8_cache_frame.2.2 c8ExState (secs 100) (fun _ => none)
    { c8ExState with waker := true, querying := secs 100 }
    { res := .pending, issuedLookup := true, trace := [] } (by decide)

end P2shd
